import Mathlib

/-!
Verification development for the stestr core: the run-configuration
resolver (`stestr/config_file.py`), the latest-run reporting pipeline
(`stestr/commands/last.py`) and repository initialisation
(`stestr/commands/init.py`).

Python strings are modelled as Lean `String` (or `List Char` where the
character-level regex behaviour matters); Python `None` / falsy defaults
are modelled with `Option` plus an explicit truthiness test; `sys.exit`
and uncaught exceptions are modelled with `Except String`.
-/

/-- Python truthiness of an optional string: `None` and `""` are falsy. -/
def strTruthy : Option String → Bool
  | none => false
  | some s => !s.isEmpty

/-! ## Path sanitization (`TestrConf._sanitize_path`, config_file.py lines 34-48)

The compiled pattern is `r'(?<=[^\\])\\$'` and the substitution replaces the
matched single backslash with two backslashes.  The pattern matches a single
backslash that is immediately preceded by a character other than a backslash
and that sits at an end-of-string position; in Python (no MULTILINE flag)
`$` matches at the very end of the string and also just before a newline that
is the final character.  At most one such match exists, so a single
replacement models `re.sub`.

`subRev` performs the substitution on the *reversed* character list: the
first two cases are the two `$` positions, everything else is untouched. -/
def subRev (r : List Char) : List Char :=
  match r with
  | a :: b :: rest =>
    if a = '\\' then
      -- a single trailing backslash, lookbehind requires b ≠ '\'
      if b = '\\' then a :: b :: rest else '\\' :: '\\' :: b :: rest
    else if a = '\n' then
      -- `$` just before a final newline
      match b, rest with
      | b, c :: rest2 =>
        if b = '\\' then
          if c = '\\' then a :: b :: c :: rest2 else a :: b :: '\\' :: c :: rest2
        else a :: b :: c :: rest2
      | b, [] => [a, b]
    else a :: b :: rest
  | l => l

/-- `TestrConf._escape_trailing_backslash_re.sub(r'\\\\', path)`. -/
def escape_trailing_backslash_sub (p : List Char) : List Char :=
  (subRev p.reverse).reverse

/-- `TestrConf._sanitize_path` (config_file.py lines 42-48): the escape is
applied only when `os.sep == '\\'`; the platform is passed explicitly. -/
def sanitize_path (sepIsBackslash : Bool) (p : List Char) : List Char :=
  if sepIsBackslash then escape_trailing_backslash_sub p else p

/-- `_sanitize_path` lifted to `String` (used when assembling the command). -/
def sanitizeStr (sepIsBackslash : Bool) (s : String) : String :=
  ⟨sanitize_path sepIsBackslash s.data⟩

/-- Length of the run of backslashes at the end of a path. -/
def trailingBackslashes (p : List Char) : Nat :=
  (p.reverse.takeWhile (fun c => c = '\\')).length

/-! ## The run-configuration resolver (`TestrConf.get_run_command`) -/

/-- The view of the parsed config file that `get_run_command` consults:
`config_file` is the path handed to `TestrConf.__init__`; each remaining
field is `parser.get(section, key)` when `parser.has_option(section, key)`
holds, `none` otherwise (`parallel_class` through `parser.getboolean`). -/
structure TestrConf where
  config_file : String
  test_path : Option String
  top_dir : Option String
  parallel_class : Option Bool
  group_regex : Option String
deriving Inhabited

/-- The ambient interpreter/platform state read by `get_run_command`:
`sys.platform == 'win32'`, `sys.executable`, `os.environ.get('PYTHON')`,
`os.sep == '\\'`, the `os.path.exists` oracle, and whether
`util.get_repo_open` succeeds. -/
structure Env where
  win32 : Bool
  executable : Option String
  pythonEnv : Option String
  sepIsBackslash : Bool
  pathExists : String → Bool
  repoOpenOk : Bool

/-- The keyword arguments of `get_run_command` (config_file.py lines 50-58).
`parallel_class` has Python default `None`; `None` and `False` behave
identically under `if parallel_class:`, so it is modelled as `Bool`. -/
structure RunArgs where
  test_ids : Option (List String)
  regexes : Option (List String)
  test_path : Option String
  top_dir : Option String
  group_regex : Option String
  repo_url : Option String
  serial : Bool
  worker_path : Option String
  concurrency : Nat
  exclude_list : Option String
  include_list : Option String
  exclude_regex : Option String
  randomize : Bool
  parallel_class : Bool
deriving Inhabited

/-- The arguments `get_run_command` passes to
`test_processor.TestProcessorFixture` (config_file.py lines 168-174).
The `group_callback` closure is represented by the pattern it was compiled
from (`group_regex = none` models `group_callback = None`). -/
structure TestProcessorFixture where
  test_ids : Option (List String)
  command : String
  listopt : String
  idoption : String
  test_filters : Option (List String)
  group_regex : Option String
  serial : Bool
  worker_path : Option String
  concurrency : Nat
  exclude_list : Option String
  include_list : Option String
  exclude_regex : Option String
  randomize : Bool
deriving Inhabited

/-- config_file.py lines 109-115: the `sys.exit` message, built with
`str.format` on the config file path. -/
def noTestPathMessage (config_file : String) : String :=
  "No test_path can be found in either the command line options nor in the specified config file " ++ config_file ++ ".  Please specify a test path either in the config file or via the --test-path argument"

/-- config_file.py lines 109-115: keep a truthy override, else fall back to
the config section, else abort (`sys.exit` is modelled as `Except.error`). -/
def resolve_test_path (cfg : TestrConf) (test_path : Option String) :
    Except String String :=
  if strTruthy test_path then Except.ok (test_path.getD "")
  else
    match cfg.test_path with
    | some v => Except.ok v
    | none => Except.error (noTestPathMessage cfg.config_file)

/-- config_file.py lines 116-119: like `test_path` but defaulting to `"./"`. -/
def resolve_top_dir (cfg : TestrConf) (top_dir : Option String) : String :=
  if strTruthy top_dir then top_dir.getD ""
  else
    match cfg.top_dir with
    | some v => v
    | none => "./"

/-- config_file.py lines 124-138: interpreter resolution; a `RuntimeError`
is modelled as `Except.error`. -/
def resolve_python (env : Env) : Except String String :=
  if env.win32 then
    if strTruthy env.executable then Except.ok (env.executable.getD "")
    else Except.error "The Python interpreter was not found"
  else
    if strTruthy env.pythonEnv then Except.ok "${PYTHON}"
    else if strTruthy env.executable then Except.ok (env.executable.getD "")
    else Except.error ("The Python interpreter was not found and PYTHON " ++
      "is not set")

/-- config_file.py lines 140-142: `if os.path.exists('"%s"' % python):
python = '"%s"' % python` — the quoted string itself is looked up on the
filesystem. -/
def quote_python (env : Env) (python : String) : String :=
  if env.pathExists ("\"" ++ python ++ "\"") then "\"" ++ python ++ "\""
  else python

/-- The fixed grouping pattern `r'([^\.]*\.)*'` (config_file.py lines
151 and 155). -/
def parallelClassRegex : String := "([^\\.]*\\.)*"

/-- config_file.py lines 150-158: the group-regex precedence chain.  Each
`if not group_regex` test is Python truthiness (`None` or `""`). -/
def resolve_group_regex (cfg : TestrConf) (parallel_class : Bool)
    (group_regex : Option String) : Option String :=
  let gr1 := if parallel_class then some parallelClassRegex else group_regex
  let gr2 :=
    if strTruthy gr1 = false ∧ cfg.parallel_class = some true then
      some parallelClassRegex
    else gr1
  let gr3 :=
    if strTruthy gr2 = false ∧ cfg.group_regex.isSome then cfg.group_regex
    else gr2
  gr3

/-- `TestrConf.get_run_command` (config_file.py lines 50-174).  `sys.exit`,
`RuntimeError` and a failed `util.get_repo_open` all abort without
producing a fixture and are modelled as `Except.error`. -/
def get_run_command (cfg : TestrConf) (env : Env) (a : RunArgs) :
    Except String TestProcessorFixture :=
  match resolve_test_path cfg a.test_path with
  | Except.error e => Except.error e
  | Except.ok tp0 =>
    let tp := sanitizeStr env.sepIsBackslash tp0
    let td := sanitizeStr env.sepIsBackslash (resolve_top_dir cfg a.top_dir)
    match resolve_python env with
    | Except.error e => Except.error e
    | Except.ok py0 =>
      let py := quote_python env py0
      let command := py ++ " -m stestr.subunit_runner.run discover -t \"" ++
        td ++ "\" \"" ++ tp ++ "\" $LISTOPT $IDOPTION"
      let gr := resolve_group_regex cfg a.parallel_class a.group_regex
      -- `if group_regex:` — the callback exists only for a truthy pattern
      let gcb := if strTruthy gr then gr else none
      if env.repoOpenOk then
        Except.ok
          { test_ids := a.test_ids
            command := command
            listopt := "--list"
            idoption := "--load-list $IDFILE"
            test_filters := a.regexes
            group_regex := gcb
            serial := a.serial
            worker_path := a.worker_path
            concurrency := a.concurrency
            exclude_list := a.exclude_list
            include_list := a.include_list
            exclude_regex := a.exclude_regex
            randomize := a.randomize }
      else Except.error "RepositoryNotFound"

/-! ## The classifier built from the fixed `parallel_class` pattern

`([^\.]*\.)*` matches, greedily, a maximal sequence of blocks each made of
non-dot characters followed by a dot.  Zero blocks are allowed, so the
match never fails; `match.group(0)` is the longest prefix made of such
blocks.  `classMatch` computes that prefix block by block. -/
def classMatch (s : List Char) : List Char :=
  match h : s.dropWhile (fun c => c ≠ '.') with
  | [] => []
  | c :: rest => s.takeWhile (fun c => c ≠ '.') ++ c :: classMatch rest
termination_by s.length
decreasing_by
  have hle := (List.dropWhile_sublist (l := s) (p := fun c => c ≠ '.')).length_le
  rw [h] at hle
  simp at hle
  omega

/-- `regex.match(test_id)` for `regex = re.compile(r'([^\.]*\.)*')`: the
pattern accepts the empty prefix, so the match always succeeds and
`group(0)` is the maximal block prefix. -/
def parallelClassMatch (test_id : List Char) : Option (List Char) :=
  some (classMatch test_id)

/-- `group_callback` (config_file.py lines 160-163) for the fixed
`parallel_class` pattern: `if match: return match.group(0)` — a Python
function falls through to `None` when the match fails. -/
def group_callback (test_id : List Char) : Option (List Char) :=
  match parallelClassMatch test_id with
  | some m => some m
  | none => none

/-! ## The latest-run reporting pipeline (`stestr/commands/last.py`) -/

/-- A stored run as consumed by `last`: its raw subunit byte stream and
whether the stored results record any failing test.

Modelled from the spec: the `Run` entity itself lives in the external
repository module (out of scope); the spec reduces what `last` reads from
it to the replayable stream and the recorded pass/fail outcome. -/
structure Run where
  stream : String
  hasFailures : Bool
deriving Inhabited

/-- A repository as consumed by `last`: the stored runs in id order.
`get_latest_run` is the last element; `get_test_run(latest_id() - 1)` is
the element before it when one exists. -/
structure Repository where
  runs : List Run
deriving Inhabited

/-- Modelled from the spec: the message text of the `KeyError` raised by
the external repository module when the store has zero runs
(`NoRunsRecordedError`); `last` only prints it verbatim. -/
def noRunsMsg : String := "No tests in repository"

/-- Modelled from the spec: the Structured renderer
(`results.CLITestResult` + `results.wasSuccessful`, external to the
resolver/reporter sources): it replays the run against a collector,
prints a summary, and succeeds exactly when the run recorded no failure. -/
def renderStructured (r : Run) (previous : Option Run) : String :=
  "summary failed=" ++ toString r.hasFailures ++
    (match previous with
     | some _ => " with-previous-run"
     | none => "")

/-- Modelled from the spec: the StreamingTrace renderer
(`subunit_trace.trace`, external): prints per-test lines honoring the
color/attachment settings and returns whether the run had failures. -/
def renderTrace (r : Run) (color suppress_attachments all_attachments
    show_binary_attachments : Bool) : String :=
  "trace color=" ++ toString color ++
    " suppress=" ++ toString suppress_attachments ++
    " all=" ++ toString all_attachments ++
    " binary=" ++ toString show_binary_attachments ++
    " failed=" ++ toString r.hasFailures

/-- The `last` function (last.py lines 118-191).  The result is
`(exit status, text written to stdout)`.  `repoOpen` is the outcome of
`util.get_repo_open` (`Except.error` carries the printed
`RepositoryNotFound` message). -/
def last (repoOpen : Except String Repository)
    (subunit_out pretty_out color suppress_attachments all_attachments
      show_binary_attachments : Bool) : Nat × String :=
  match repoOpen with
  | Except.error e => (1, e ++ "\n")
  | Except.ok repo =>
    match repo.runs.getLast? with
    | none => (1, noRunsMsg ++ "\n")
    | some latest_run =>
      if subunit_out then
        -- output.output_stream copies the byte stream verbatim, then
        -- `return 0` regardless of the run's outcome (lines 160-164)
        (0, latest_run.stream)
      else
        -- previous_run := get_test_run(latest_id() - 1), absence → None
        let previous_run :=
          if 2 ≤ repo.runs.length then repo.runs.get? (repo.runs.length - 2)
          else none
        let failed_out :=
          if pretty_out = false then
            (latest_run.hasFailures, renderStructured latest_run previous_run)
          else
            (latest_run.hasFailures,
             renderTrace latest_run color suppress_attachments
               all_attachments show_binary_attachments)
        (if failed_out.1 then 1 else 0, failed_out.2)

/-- The CLI flags of `last` (last.py lines 41-72); every flag is
`store_true` with default `False`. -/
structure LastArgs where
  subunit : Bool
  no_subunit_trace : Bool
  force_subunit_trace : Bool
  color : Bool
  suppress_attachments : Bool
  all_attachments : Bool
  show_binary_attachments : Bool
deriving Inhabited

/-- The truthy `user_conf.last` section consulted by `Last.take_action`
(`'no-subunit-trace'` and `'color'` keys, defaulting to false). -/
structure UserConfLastSection where
  no_subunit_trace : Bool
  color : Bool
deriving Inhabited

/-- The `user_conf.run` section consulted by `Last.take_action`
(`'suppress-attachments'` and `'all-attachments'` keys). -/
structure UserConfRunSection where
  suppress_attachments : Bool
  all_attachments : Bool
deriving Inhabited

/-- The user config object: `getattr(user_conf, 'last', False)` is truthy
exactly when `lastSection` is `some`. -/
structure UserConf where
  lastSection : Option UserConfLastSection
  runSection : UserConfRunSection
deriving Inhabited

/-- last.py lines 78-80. -/
def mutuallyExclusiveMsg : String :=
  "The --suppress-attachments and --all-attachments options are mutually " ++
  "exclusive, you can not use both at the same time"

/-- `Last.take_action` (last.py lines 74-115).  The result is
`((exit status, stdout text), number of calls to the repository gateway
util.get_repo_open)`; `sys.exit(1)` after the printed conflict message is
modelled as returning status 1 with zero gateway calls. -/
def Last_take_action (uc : UserConf) (args : LastArgs)
    (repoOpen : Except String Repository) : (Nat × String) × Nat :=
  if args.suppress_attachments ∧ args.all_attachments then
    ((1, mutuallyExclusiveMsg ++ "\n"), 0)
  else
    let resolved :=
      match uc.lastSection with
      | some l =>
        let pretty0 :=
          if l.no_subunit_trace = false then
            if args.no_subunit_trace = false then true else false
          else false
        let pretty_out := args.force_subunit_trace || pretty0
        let color := args.color || l.color
        let supp_all :=
          if args.suppress_attachments = false ∧ args.all_attachments = false
          then (uc.runSection.suppress_attachments,
                uc.runSection.all_attachments)
          else if args.suppress_attachments then (true, false)
          else (false, true)
        (pretty_out, color, supp_all.1, supp_all.2)
      | none =>
        (args.force_subunit_trace || !args.no_subunit_trace, args.color,
         args.suppress_attachments, args.all_attachments)
    (last repoOpen args.subunit resolved.1 resolved.2.1 resolved.2.2.1
       resolved.2.2.2 args.show_binary_attachments, 1)

/-! ## Repository initialisation (`stestr/commands/init.py`) -/

/-- `errno.EEXIST`. -/
def EEXIST : Nat := 17

/-- init.py lines 50-52. -/
def sqlDeprecationMsg : String :=
  "WARNING: The sql repository type is deprecated and will be removed in " ++
  "the 4.0.0 release. Instead use the file repository type\n"

/-- init.py lines 61-63. -/
def alreadyExistsMsg (repo_path : String) : String :=
  "The specified repository directory " ++ repo_path ++ " already exists. Please check if the repository already exists or select a different path\n"

/-- The `init` function (init.py lines 31-64).  `fs` is the outcome of
`util.get_repo_initialise`: `none` on success, `some errno` when it raises
an `OSError`.  The result is `Except errno (return value, stdout, stderr)`
where `Except.error` models the re-raised `OSError` and the `Option Nat`
return value models that the function returns `None` (not 0) on success. -/
def init (repo_type : String) (repo_url : Option String)
    (fs : Option Nat) : Except Nat (Option Nat × String × String) :=
  let stderrText := if repo_type = "sql" then sqlDeprecationMsg else ""
  match fs with
  | none => Except.ok (none, "", stderrText)
  | some e =>
    if e ≠ EEXIST then Except.error e
    else
      -- repo_path = repo_url or './stestr'   (Python `or`: falsy → default)
      let repo_path := if strTruthy repo_url then repo_url.getD "" else
        "./stestr"
      Except.ok (some 1, alreadyExistsMsg repo_path, stderrText)

/-- `Init.take_action` (init.py lines 27-28): it calls `init(...)` without
returning its value, so (unless `init` raises) the method returns Python
`None` — whatever status `init` produced is discarded. -/
def Init_take_action (repo_type : String) (repo_url : Option String)
    (fs : Option Nat) : Except Nat (Option Nat) :=
  (init repo_type repo_url fs).map (fun _ => none)

/-! ## Concrete instances used to evaluate the model -/

/-- A config file whose section provides only `test_path`. -/
def cfgDemo : TestrConf :=
  { config_file := "stestr.conf"
    test_path := some "tests/unit"
    top_dir := none
    parallel_class := none
    group_regex := none }

/-- A config file whose section has no `test_path` at all. -/
def cfgNoPath : TestrConf :=
  { config_file := ".stestr.conf"
    test_path := none
    top_dir := none
    parallel_class := none
    group_regex := none }

/-- A POSIX environment: interpreter resolved from `sys.executable`, no
filesystem entry whose name carries literal double quotes, repository
opens fine. -/
def envPosix : Env :=
  { win32 := false
    executable := some "/usr/bin/python3"
    pythonEnv := none
    sepIsBackslash := false
    pathExists := fun _ => false
    repoOpenOk := true }

/-- Same environment but the interpreter path contains a space. -/
def envSpacePython : Env :=
  { envPosix with executable := some "/opt/my python/bin/python3" }

/-- `get_run_command` arguments with every override at its default. -/
def argsDefault : RunArgs :=
  { test_ids := none
    regexes := none
    test_path := none
    top_dir := none
    group_regex := none
    repo_url := none
    serial := false
    worker_path := none
    concurrency := 0
    exclude_list := none
    include_list := none
    exclude_regex := none
    randomize := false
    parallel_class := false }

/-- `parallel_class=True` together with an explicit `group_regex` override. -/
def c2args : RunArgs :=
  { argsDefault with parallel_class := true, group_regex := some "gr-explicit" }

/-- The fixture produced for `c2args` (defined via the model itself so the
witness can evaluate it). -/
def c2desc : TestProcessorFixture :=
  (get_run_command cfgDemo envPosix c2args).toOption.getD default

/-- A stored run whose stream records only failing tests. -/
def failRun : Run := { stream := "subunit-bytes-with-failures", hasFailures := true }

/-- A repository holding exactly that one run. -/
def repoOne : Repository := { runs := [failRun] }

/-- A user config with no `last` section and empty run-section defaults. -/
def ucDemo : UserConf :=
  { lastSection := none
    runSection := { suppress_attachments := false, all_attachments := false } }

/-- The conflicting CLI invocation of `last`. -/
def argsConflict : LastArgs :=
  { subunit := false
    no_subunit_trace := false
    force_subunit_trace := false
    color := false
    suppress_attachments := true
    all_attachments := true
    show_binary_attachments := false }


/-! ## Helper lemmas -/

theorem subRev_idem (r : List Char) : subRev (subRev r) = subRev r := by
  match r with
  | [] => rfl
  | [a] => rfl
  | a :: b :: rest =>
    by_cases ha : a = '\\'
    · subst ha
      by_cases hb : b = '\\'
      · subst hb; rfl
      · simp [subRev, hb]
    · by_cases ha2 : a = '\n'
      · subst ha2
        match rest with
        | [] => rfl
        | c :: rest2 =>
          by_cases hb : b = '\\'
          · subst hb
            by_cases hc : c = '\\'
            · subst hc; rfl
            · simp [subRev, hc]
          · simp [subRev, ha, hb]
      · simp [subRev, ha, ha2]

theorem subRev_reverse_spec (r : List Char) :
    (subRev r).reverse =
      (if (r.takeWhile (fun c => c = '\\')).length = 1 ∧ 2 ≤ r.length then
        r.reverse ++ ['\\']
      else if r.head? = some '\n' ∧
          (r.tail.takeWhile (fun c => c = '\\')).length = 1 ∧ 3 ≤ r.length then
        r.tail.reverse ++ ['\\', '\n']
      else r.reverse) := by
  match r with
  | [] => simp [subRev]
  | [a] =>
    rw [if_neg, if_neg]
    · simp [subRev]
    · rintro ⟨-, -, h3⟩; simp at h3
    · rintro ⟨-, h2⟩; simp at h2
  | a :: b :: rest =>
    by_cases ha : a = '\\'
    · subst ha
      by_cases hb : b = '\\'
      · subst hb
        rw [if_neg, if_neg]
        · simp [subRev]
        · rintro ⟨h1, -⟩; simp at h1
        · rintro ⟨h1, -⟩
          rw [List.takeWhile_cons_of_pos (by simp),
            List.takeWhile_cons_of_pos (by simp)] at h1
          simp at h1
      · rw [if_pos]
        · simp [subRev, hb]
        · constructor
          · rw [List.takeWhile_cons_of_pos (by simp),
              List.takeWhile_cons_of_neg (by simp [hb])]
            rfl
          · simp
    · by_cases ha2 : a = '\n'
      · subst ha2
        match rest with
        | [] =>
          rw [if_neg, if_neg]
          · simp [subRev]
          · rintro ⟨-, -, h3⟩; simp at h3
          · rintro ⟨h1, -⟩
            rw [List.takeWhile_cons_of_neg (by simp)] at h1
            simp at h1
        | c :: rest2 =>
          by_cases hb : b = '\\'
          · subst hb
            by_cases hc : c = '\\'
            · subst hc
              rw [if_neg, if_neg]
              · simp [subRev]
              · rintro ⟨-, h2, -⟩
                rw [List.tail_cons,
                  List.takeWhile_cons_of_pos (by simp),
                  List.takeWhile_cons_of_pos (by simp)] at h2
                simp at h2
              · rintro ⟨h1, -⟩
                rw [List.takeWhile_cons_of_neg (by simp)] at h1
                simp at h1
            · rw [if_neg, if_pos]
              · simp [subRev, hc]
              · refine ⟨rfl, ?_, by simp⟩
                rw [List.tail_cons,
                  List.takeWhile_cons_of_pos (by simp),
                  List.takeWhile_cons_of_neg (by simp [hc])]
                rfl
              · rintro ⟨h1, -⟩
                rw [List.takeWhile_cons_of_neg (by simp)] at h1
                simp at h1
          · rw [if_neg, if_neg]
            · simp [subRev, hb]
            · rintro ⟨-, h2, -⟩
              rw [List.tail_cons,
                List.takeWhile_cons_of_neg (by simp [hb])] at h2
              simp at h2
            · rintro ⟨h1, -⟩
              rw [List.takeWhile_cons_of_neg (by simp)] at h1
              simp at h1
      · rw [if_neg, if_neg]
        · simp [subRev, ha, ha2]
        · rintro ⟨h2, -⟩
          simp [ha2] at h2
        · rintro ⟨h1, -⟩
          rw [List.takeWhile_cons_of_neg (by simp [ha])] at h1
          simp at h1

theorem reverse_getLast?_eq (l : List Char) : l.reverse.getLast? = l.head? := by
  cases l with
  | nil => rfl
  | cons a t => simp

theorem reverse_dropLast_eq (l : List Char) : l.reverse.dropLast = l.tail.reverse := by
  cases l with
  | nil => rfl
  | cons a t => simp [List.dropLast_concat]

/-! ## Claims about path sanitization -/

/-- Claim C1, counterexample: the path `a\\\` ends in an odd number (three)
of consecutive backslashes, yet `_sanitize_path` on a backslash-separator
platform leaves it unchanged — the final backslash is not doubled.  The
lookbehind `(?<=[^\\])` only fires when the trailing backslash run has
length exactly one. -/
theorem C1_counterexample :
    Odd (trailingBackslashes ['a', '\\', '\\', '\\']) ∧
    sanitize_path true ['a', '\\', '\\', '\\'] = ['a', '\\', '\\', '\\'] ∧
    sanitize_path true ['a', '\\', '\\', '\\'] ≠
      ['a', '\\', '\\', '\\'] ++ ['\\'] := by
  refine ⟨by decide, rfl, by decide⟩

/-- Claim C1 (amended): on a platform whose separator is a backslash,
`_sanitize_path` doubles the final backslash exactly when the trailing
backslash run has length one and a (non-backslash) character precedes it —
equivalently when the path ends in exactly one backslash — or when the
same configuration is followed by one final newline, which the pattern's
`$` anchor skips; every other path, including one ending in three or more
backslashes, and every path on a platform whose separator is not a
backslash, passes through unchanged. -/
theorem C1_sanitize_amended (p : List Char) :
    sanitize_path false p = p ∧
    sanitize_path true p =
      (if trailingBackslashes p = 1 ∧ 2 ≤ p.length then p ++ ['\\']
      else if p.getLast? = some '\n' ∧ trailingBackslashes p.dropLast = 1 ∧
          3 ≤ p.length then
        p.dropLast ++ ['\\', '\n']
      else p) := by
  constructor
  · rfl
  · obtain ⟨r, rfl⟩ : ∃ r : List Char, p = r.reverse := ⟨p.reverse, by simp⟩
    have h := subRev_reverse_spec r
    simp only [sanitize_path, escape_trailing_backslash_sub, if_true,
      trailingBackslashes, List.reverse_reverse, List.length_reverse,
      reverse_getLast?_eq, reverse_dropLast_eq]
    exact h

/-- Claim C8: `_sanitize_path` is idempotent — re-applying it to its own
output is a no-op, on every platform and every path. -/
theorem C8_sanitize_idempotent (sepIsBackslash : Bool) (p : List Char) :
    sanitize_path sepIsBackslash (sanitize_path sepIsBackslash p) =
      sanitize_path sepIsBackslash p := by
  cases sepIsBackslash
  · rfl
  · simp only [sanitize_path, escape_trailing_backslash_sub, if_true,
      List.reverse_reverse]
    rw [subRev_idem]

/-! ## Claims about the run-configuration resolver -/

theorem resolve_group_regex_of_parallel (cfg : TestrConf)
    (g : Option String) :
    resolve_group_regex cfg true g = some parallelClassRegex := by
  have h : strTruthy (some parallelClassRegex) = true := rfl
  simp [resolve_group_regex, h]

/-- Claim C2: whenever the `parallel_class` override is true, the fixture
returned by `get_run_command` carries a classifier compiled from the fixed
pattern `([^\.]*\.)*` — even when an explicit `group_regex` override was
supplied, which is silently overwritten. -/
theorem C2_parallel_class_overrides (cfg : TestrConf) (env : Env)
    (a : RunArgs) (gr : String) (hpc : a.parallel_class = true)
    (hgr : a.group_regex = some gr) (d : TestProcessorFixture)
    (hok : get_run_command cfg env a = Except.ok d) :
    d.group_regex = some parallelClassRegex := by
  unfold get_run_command at hok
  cases h1 : resolve_test_path cfg a.test_path with
  | error e => simp [h1] at hok
  | ok tp0 =>
    simp only [h1] at hok
    cases h2 : resolve_python env with
    | error e => simp [h2] at hok
    | ok py0 =>
      simp only [h2] at hok
      by_cases h3 : env.repoOpenOk = true
      · simp only [h3, if_true, Except.ok.injEq] at hok
        subst hok
        have h4 : strTruthy (some parallelClassRegex) = true := rfl
        simp [hpc, resolve_group_regex_of_parallel, h4]
      · simp [h3] at hok

/-- Claim C2, witness instance. -/
theorem C2_witness :
    c2args.parallel_class = true ∧ c2args.group_regex = some "gr-explicit" ∧
    get_run_command cfgDemo envPosix c2args = Except.ok c2desc ∧
    c2desc.group_regex = some parallelClassRegex :=
  ⟨rfl, rfl, rfl,
   C2_parallel_class_overrides cfgDemo envPosix c2args "gr-explicit" rfl rfl
     c2desc rfl⟩

/-- Claim C5: when `test_path` is truthy in neither the overrides nor the
config section, `get_run_command` aborts with the `sys.exit` message —
which names the config file path — and no fixture (even partial) is
produced (`Except.error` carries no fixture). -/
theorem C5_missing_test_path (cfg : TestrConf) (env : Env) (a : RunArgs)
    (h1 : strTruthy a.test_path = false) (h2 : cfg.test_path = none) :
    get_run_command cfg env a =
      Except.error (noTestPathMessage cfg.config_file) ∧
    ∃ pre post,
      noTestPathMessage cfg.config_file = pre ++ cfg.config_file ++ post := by
  constructor
  · unfold get_run_command resolve_test_path
    simp [h1, h2]
  · exact ⟨"No test_path can be found in either the command line options nor in the specified config file ",
      ".  Please specify a test path either in the config file or via the --test-path argument",
      rfl⟩

/-- Claim C5, witness instance. -/
theorem C5_witness :
    strTruthy argsDefault.test_path = false ∧ cfgNoPath.test_path = none ∧
    get_run_command cfgNoPath envPosix argsDefault =
      Except.error (noTestPathMessage cfgNoPath.config_file) :=
  ⟨rfl, rfl,
   (C5_missing_test_path cfgNoPath envPosix argsDefault rfl rfl).1⟩

/-- Claim C6: the code does *not* quote an interpreter path containing
whitespace.  At this input the resolved interpreter is
`/opt/my python/bin/python3` (it contains a space), no filesystem entry
named with surrounding literal quotes exists, and the assembled command
embeds the path unquoted: quoting happens only when
`os.path.exists('"%s"' % python)` holds, which is unrelated to
whitespace. -/
theorem C6_code_bug :
    (∃ s, envSpacePython.executable = some s ∧ ' ' ∈ s.data) ∧
    envSpacePython.pathExists "\"/opt/my python/bin/python3\"" = false ∧
    (get_run_command cfgDemo envSpacePython argsDefault).map
        (fun d => d.command) =
      Except.ok "/opt/my python/bin/python3 -m stestr.subunit_runner.run discover -t \"./\" \"tests/unit\" $LISTOPT $IDOPTION" := by
  refine ⟨⟨"/opt/my python/bin/python3", rfl, ?_⟩, rfl, ?_⟩
  · decide
  · rfl

/-! ## Claims about `init` and the reporting pipeline -/

/-- Claim C7: behaviour of the code at an already-initialised location and
at a fresh one.  The `init` function does return 1 and prints a message
naming the resolved location when the repository already exists
(`EEXIST`), but `Init.take_action` discards that value and returns Python
`None`, and on a fresh location `init` returns `None` rather than 0 —
so the exit status promised by the claim never leaves the command. -/
theorem C7_code_bug :
    init "file" (some "/tmp/myrepo") (some EEXIST) =
      Except.ok (some 1, alreadyExistsMsg "/tmp/myrepo", "") ∧
    (∃ pre post,
      alreadyExistsMsg "/tmp/myrepo" = pre ++ "/tmp/myrepo" ++ post) ∧
    Init_take_action "file" (some "/tmp/myrepo") (some EEXIST) =
      Except.ok none ∧
    init "file" none none = Except.ok (none, "", "") ∧
    Init_take_action "file" none none = Except.ok none := by
  refine ⟨rfl, ⟨"The specified repository directory ",
    " already exists. Please check if the repository already exists or select a different path\n",
    rfl⟩, rfl, rfl, rfl⟩

/-- Claim C3: for a stored run, raw (subunit) mode copies the stream and
returns exit status 0 regardless of recorded failures, while either
rendered mode (pretty or structured) returns exit status 1 when the run
recorded failing tests. -/
theorem C3_raw_vs_rendered (repo : Repository) (r : Run)
    (h : repo.runs.getLast? = some r) :
    (∀ pretty color sa aa sba : Bool,
      last (Except.ok repo) true pretty color sa aa sba = (0, r.stream)) ∧
    (r.hasFailures = true →
      ∀ pretty color sa aa sba : Bool,
        (last (Except.ok repo) false pretty color sa aa sba).1 = 1) := by
  constructor
  · intro pretty color sa aa sba
    unfold last
    simp [h]
  · intro hf pretty color sa aa sba
    unfold last
    cases pretty <;> simp [h, hf]

/-- Claim C3, witness instance: a repository whose only run records
failures. -/
theorem C3_witness :
    repoOne.runs.getLast? = some failRun ∧
    last (Except.ok repoOne) true false false false false false =
      (0, failRun.stream) ∧
    failRun.hasFailures = true ∧
    (last (Except.ok repoOne) false true false false false false).1 = 1 ∧
    (last (Except.ok repoOne) false false false false false false).1 = 1 :=
  ⟨rfl,
   (C3_raw_vs_rendered repoOne failRun rfl).1 false false false false false,
   rfl,
   (C3_raw_vs_rendered repoOne failRun rfl).2 rfl true false false false false,
   (C3_raw_vs_rendered repoOne failRun rfl).2 rfl false false false false false⟩

/-- Claim C4: when both `--suppress-attachments` and `--all-attachments`
are given, `Last.take_action` prints the conflict message and exits with
status 1 having made zero calls to the repository gateway
(`util.get_repo_open`), whatever the user config and repository state. -/
theorem C4_mutually_exclusive (uc : UserConf) (args : LastArgs)
    (repoOpen : Except String Repository)
    (hs : args.suppress_attachments = true)
    (ha : args.all_attachments = true) :
    Last_take_action uc args repoOpen =
      ((1, mutuallyExclusiveMsg ++ "\n"), 0) := by
  unfold Last_take_action
  rw [if_pos ⟨hs, ha⟩]

/-- Claim C4, witness instance. -/
theorem C4_witness :
    argsConflict.suppress_attachments = true ∧
    argsConflict.all_attachments = true ∧
    Last_take_action ucDemo argsConflict (Except.ok repoOne) =
      ((1, mutuallyExclusiveMsg ++ "\n"), 0) :=
  ⟨rfl, rfl,
   C4_mutually_exclusive ucDemo argsConflict (Except.ok repoOne) rfl rfl⟩

/-- Claim C9: the classifier built from the fixed `parallel_class` pattern
`([^\.]*\.)*` never returns `None` — the pattern matches the empty prefix
of any test id — and a test id containing no dot is assigned the
empty-string group key, so all dotless ids share one group instead of
remaining independently schedulable. -/
theorem C9_classifier_total (test_id : List Char) :
    (group_callback test_id).isSome = true ∧
    ('.' ∉ test_id → group_callback test_id = some []) := by
  constructor
  · rfl
  · intro hnd
    have hdrop : test_id.dropWhile (fun c => c ≠ '.') = [] := by
      rw [List.dropWhile_eq_nil_iff]
      intro x hx
      exact decide_eq_true (fun heq => hnd (heq ▸ hx))
    have hcm : classMatch test_id = [] := by
      unfold classMatch
      split
      · rfl
      · rename_i c rest heq
        rw [hdrop] at heq
        cases heq
    simp [group_callback, parallelClassMatch, hcm]

/-- Claim C9, witness instance: a dotless id gets the empty key. -/
theorem C9_witness :
    (group_callback ['t', 'e', 's', 't']).isSome = true ∧
    group_callback ['t', 'e', 's', 't'] = some [] :=
  ⟨(C9_classifier_total ['t', 'e', 's', 't']).1,
   (C9_classifier_total ['t', 'e', 's', 't']).2 (by decide)⟩

/-- Claim C10: in raw (subunit) mode the pair (exit status, bytes written)
produced by `last` is independent of `pretty_out`, `color`,
`suppress_attachments`, `all_attachments` and `show_binary_attachments`:
two invocations on the same repository state differing only in those
settings coincide. -/
theorem C10_raw_mode_noninterference (repoOpen : Except String Repository)
    (p₁ c₁ s₁ a₁ b₁ p₂ c₂ s₂ a₂ b₂ : Bool) :
    last repoOpen true p₁ c₁ s₁ a₁ b₁ = last repoOpen true p₂ c₂ s₂ a₂ b₂ := by
  unfold last
  cases repoOpen with
  | error e => rfl
  | ok repo =>
    cases h : repo.runs.getLast? with
    | none => rfl
    | some r => simp
